import Mathlib

/-!
Shallow embedding of `python/samples/mem/clients/_client_creator.py`
(class `ClientCreator`).

The Python module builds a keyword-argument dictionary, dispatches on the
configured provider to construct a chat-completion client, logs a redacted
dump of the arguments, and optionally wraps the client in a recording
decorator.  We model the argument dictionary as an association list with
Python dict semantics (assignment replaces a present key in place,
otherwise appends), the client as an inductive capturing which constructor
ran with which arguments, and the two `assert False` statements as the two
error outcomes.
-/

namespace ClientCreator

/-- A Python value that can appear in the config or in the args dict. -/
inductive Value where
  | str (s : String)
  | num (n : Int)
  /-- Python `None` (e.g. the result of `os.getenv` on an unset variable). -/
  | pyNone
  /-- Result of `get_bearer_token_provider(...)`; the description records
  which credential chain and scope were used. -/
  | tokenProvider (desc : String)
  /-- The fixed `model_info` capability dict built in `create_phi_client`. -/
  | modelInfo (vision function_calling json_output structured_output
      multiple_system_messages : Bool) (family : String)
  deriving DecidableEq, Repr

/-- Rendering used when a value is interpolated into a log line (Python
`str`).  The exact text only matters in that the credential value is the
only place a secret could appear. -/
def Value.pyStr : Value → String
  | .str s => s
  | .num n => toString n
  | .pyNone => "None"
  | .tokenProvider d => "<token provider " ++ d ++ ">"
  | .modelInfo v f j s m fam =>
      "ModelInfo " ++ toString v ++ " " ++ toString f ++ " " ++ toString j ++
      " " ++ toString s ++ " " ++ toString m ++ " " ++ fam

/-- The args dictionary: keys in insertion order, as in a Python dict. -/
abbrev Args := List (String × Value)

/-- Python `d[k] = v`: replace the value of a present key in place,
otherwise append the pair at the end. -/
def insertArg : Args → String → Value → Args
  | [], k, v => [(k, v)]
  | (k', v') :: rest, k, v =>
      if k' == k then (k', v) :: rest else (k', v') :: insertArg rest k v

/-- Python `d.get(k)` on the args dict. -/
def lookupArg : Args → String → Option Value
  | [], _ => none
  | (k', v') :: rest, k => if k' == k then some v' else lookupArg rest k

/-- Python `k in d` on the args dict. -/
def containsKey (args : Args) (k : String) : Bool :=
  (lookupArg args k).isSome

/-- The nested `config["ChatCompletionClientRecorder"]` sub-configuration. -/
structure RecorderCfg where
  enabled : Bool
  mode : Value
  session_name : Value
  deriving DecidableEq, Repr

/-- The nested `config["ClientRecorder"]` sub-configuration.  The code never
reads an `enabled` flag from it, but a configuration may still carry one,
so we keep the field to state claims about it. -/
structure Recorder2Cfg where
  enabled : Bool
  mode : Value
  session_filename : Value
  deriving DecidableEq, Repr

/-- The configuration dictionary, restricted to the keys `create_client`
and its helpers read.  Keys the code reads unconditionally are plain
fields; keys probed with `in` are `Option`s. -/
structure Config where
  provider : String
  model : String
  reasoning_effort : Value
  max_completion_tokens : Value
  max_retries : Value
  temperature : Value
  presence_penalty : Value
  frequency_penalty : Value
  top_p : Value
  api_key : Option Value
  ChatCompletionClientRecorder : Option RecorderCfg
  ClientRecorder : Option Recorder2Cfg
  deriving DecidableEq, Repr

/-- The process environment as far as the module reads it: only
`os.getenv("PHYAGI_API_KEY")` in `create_phi_client`. -/
structure Env where
  phyagi_api_key : Option String
  deriving DecidableEq, Repr

/-- The two `assert False` outcomes, named as in the specification. -/
inductive CreatorError where
  /-- `assert False, "Invalid client provider"` in `create_client`. -/
  | unsupportedProvider
  /-- `assert False, "Unsupported model"` in `create_aoai_client` and
  `create_trapi_client`. -/
  | unsupportedModel
  deriving DecidableEq, Repr

/-- The constructed client: which constructor ran, with which resolved
arguments, possibly wrapped in `ChatCompletionClientRecorder` decorators. -/
inductive Client where
  | openAI (args : Args)
  | azureOpenAI (args : Args)
  | recorder (inner : Client) (mode sessionId : Value)
  deriving DecidableEq, Repr

/-- Python `s.startswith(pre)`, stated over the character lists so that it
evaluates by kernel reduction (Lean's own `String.startsWith` is
implemented on `Substring` and does not). -/
def startswith (s pre : String) : Bool :=
  pre.data.isPrefixOf s.data

/-- Lines 15-30 of `create_client`: the base args shared by all clients,
then either the reasoning-effort key (model names starting with "o") or
the six sampling/retry/limit keys. -/
def base_args (config : Config) : Args :=
  let args := insertArg [] "model" (.str config.model)
  if startswith config.model "o" then
    insertArg args "reasoning_effort" config.reasoning_effort
  else
    let args := insertArg args "max_completion_tokens" config.max_completion_tokens
    let args := insertArg args "max_retries" config.max_retries
    let args := insertArg args "temperature" config.temperature
    let args := insertArg args "presence_penalty" config.presence_penalty
    let args := insertArg args "frequency_penalty" config.frequency_penalty
    insertArg args "top_p" config.top_p

/-- `create_oai_client`: adds `api_key` from the config when present and
calls the `OpenAIChatCompletionClient` constructor.  Never fails. -/
def create_oai_client (config : Config) (args : Args) : Client × String × Args :=
  let args := match config.api_key with
    | some v => insertArg args "api_key" v
    | none => args
  (.openAI args, "  created through OpenAI", args)

/-- `create_aoai_client`.  The source tests `model == "gpt-4o-2024-11-20"`
with a plain `if` whose assignments are dead: the next statement is a fresh
`if model == "gpt-4.1" ... else: assert False`, so every model other than
"gpt-4.1" reaches the assert, including "gpt-4o-2024-11-20".  We keep that
dead binding explicitly to mirror the source text. -/
def create_aoai_client (config : Config) (args : Args) :
    Except CreatorError (Client × String × Args) :=
  let model := config.model
  let _dead_deployment_endpoint : Option (String × String) :=
    if model == "gpt-4o-2024-11-20" then
      some ("gpt-4o", "https://agentic1.openai.azure.com/")
    else none
  if model == "gpt-4.1" then
    let azure_deployment := "gpt-4.1"
    let azure_endpoint := "https://aipmaker.openai.azure.com/"
    let api_version := "2024-12-01-preview"
    let args := insertArg args "azure_ad_token_provider"
      (.tokenProvider "DefaultAzureCredential cognitiveservices.azure.com/.default")
    let args := insertArg args "azure_deployment" (.str azure_deployment)
    let args := insertArg args "azure_endpoint" (.str azure_endpoint)
    let args := insertArg args "api_version" (.str api_version)
    .ok (.azureOpenAI args, "  created through Azure OpenAI", args)
  else
    .error .unsupportedModel

/-- The `elif` chain of `create_trapi_client`, lines 131-150: maps a model
name to its deployment name and, for the three branches that assign one,
the local `model_version` string. -/
def trapi_mapping (model : String) : Option (String × Option String) :=
  if model == "gpt-4o-2024-08-06" then some ("gpt-4o_2024-08-06", none)
  else if model == "gpt-4o-2024-05-13" then some ("gpt-4o_2024-05-13", none)
  else if model == "gpt-4o-2024-11-20" then some ("gpt-4o_2024-11-20", none)
  else if model == "gpt-4.1-2025-04-14" then some ("gpt-4.1_2025-04-14", none)
  else if model == "o1-preview" then some ("o1-preview_2024-09-12", none)
  else if model == "o1" then some ("o1_2024-12-17", none)
  else if model == "o3-mini" then some ("o3-mini_2025-01-31", some "2025-01-31")
  else if model == "o4-mini" then some ("o4-mini_2025-04-16", some "2025-04-16")
  else if model == "o4-mini-2025-04-16" then some ("o4-mini_2025-04-16", some "2025-04-16")
  else none

/-- `create_trapi_client`: deployment lookup, fixed endpoint and API
version, and the `model_version` forwarding that is guarded by
`model == "o3-mini"` only. -/
def create_trapi_client (config : Config) (args : Args) :
    Except CreatorError (Client × String × Args) :=
  let model := config.model
  match trapi_mapping model with
  | none => .error .unsupportedModel
  | some (azure_deployment, model_version) =>
    let trapi_suffix := "msraif/shared"
    let endpoint := "https://trapi.research.microsoft.com/" ++ trapi_suffix
    let api_version := "2025-03-01-preview"
    let args := insertArg args "azure_ad_token_provider"
      (.tokenProvider "ChainedTokenCredential AzureCliCredential DefaultAzureCredential api://trapi/.default")
    let args := insertArg args "azure_deployment" (.str azure_deployment)
    let args :=
      if model == "o3-mini" then
        match model_version with
        | some v => insertArg args "model_version" (.str v)
        | none => args
      else args
    let args := insertArg args "azure_endpoint" (.str endpoint)
    let args := insertArg args "api_version" (.str api_version)
    .ok (.azureOpenAI args, "  created through TRAPI", args)

/-- `create_phi_client`: api key from the environment (possibly `None`),
fixed base URL and capability descriptor.  Never fails; note the provenance
string reuses the Azure OpenAI text. -/
def create_phi_client (env : Env) (args : Args) : Client × String × Args :=
  let args := insertArg args "api_key"
    (match env.phyagi_api_key with
      | some s => .str s
      | none => .pyNone)
  let args := insertArg args "base_url" (.str "https://gateway.phyagi.net/api")
  let args := insertArg args "model_info" (.modelInfo false false false false false "phi")
  (.openAI args, "  created through Azure OpenAI", args)

/-- Lines 32-43 of `create_client`: dispatch on `config["provider"]`; an
unrecognized provider hits `assert False, "Invalid client provider"`. -/
def run_provider (env : Env) (config : Config) (args : Args) :
    Except CreatorError (Client × String × Args) :=
  if config.provider == "openai" then .ok (create_oai_client config args)
  else if config.provider == "azure_openai" then create_aoai_client config args
  else if config.provider == "trapi" then create_trapi_client config args
  else if config.provider == "phi" then .ok (create_phi_client env args)
  else .error .unsupportedProvider

/-- Lines 50-52: the logged dump of the args dict, one indented
`key: value` line per entry, skipping the `api_key` entry. -/
def args_dump (args : Args) : String :=
  String.intercalate "\n"
    ((args.filter (fun kv => kv.1 != "api_key")).map
      (fun kv => "    " ++ kv.1 ++ ": " ++ kv.2.pyStr))

/-- `create_client`: base args, provider dispatch, redacted log dump, and
the two recorder-wrapping steps.  Returns the (possibly wrapped) client
together with the logged args dump, the only observable the logger sees
that depends on the resolved arguments. -/
def create_client (env : Env) (config : Config) :
    Except CreatorError (Client × String) :=
  match run_provider env config (base_args config) with
  | .error e => .error e
  | .ok (client, _source, args) =>
    let args_str := args_dump args
    let client := match config.ChatCompletionClientRecorder with
      | some wrapper_config =>
          if wrapper_config.enabled then
            Client.recorder client wrapper_config.mode wrapper_config.session_name
          else client
      | none => client
    let client := match config.ClientRecorder with
      | some wrapper_config =>
          Client.recorder client wrapper_config.mode wrapper_config.session_filename
      | none => client
    .ok (client, args_str)

/-- A sample configuration used by concrete witnesses; the tuning values
are arbitrary. -/
def sampleConfig (provider model : String) : Config where
  provider := provider
  model := model
  reasoning_effort := .str "high"
  max_completion_tokens := .num 4096
  max_retries := .num 10
  temperature := .num 1
  presence_penalty := .num 0
  frequency_penalty := .num 0
  top_p := .num 1
  api_key := none
  ChatCompletionClientRecorder := none
  ClientRecorder := none

/-! ### Association-list lemmas -/

@[simp]
theorem lookupArg_insertArg_self (args : Args) (k : String) (v : Value) :
    lookupArg (insertArg args k v) k = some v := by
  induction args with
  | nil => simp [insertArg, lookupArg]
  | cons hd tl ih =>
      obtain ⟨k', v'⟩ := hd
      by_cases h : k' == k
      · simp [insertArg, lookupArg, h]
      · simp only [insertArg, lookupArg, h, Bool.false_eq_true, if_false]
        exact ih

theorem lookupArg_insertArg_ne (args : Args) (k k' : String) (v : Value)
    (h : k' ≠ k) : lookupArg (insertArg args k v) k' = lookupArg args k' := by
  induction args with
  | nil =>
      simp only [insertArg, lookupArg]
      rw [if_neg (by simpa using Ne.symm h)]
  | cons hd tl ih =>
      obtain ⟨k₀, v₀⟩ := hd
      by_cases h₀ : k₀ == k
      · have hk : k₀ = k := by simpa using h₀
        subst hk
        simp only [insertArg, h₀, if_true, lookupArg]
        rw [if_neg (by simpa using Ne.symm h), if_neg (by simpa using Ne.symm h)]
      · simp only [insertArg, h₀, Bool.false_eq_true, if_false, lookupArg]
        by_cases h₁ : k₀ == k'
        · simp [h₁]
        · simp only [h₁, Bool.false_eq_true, if_false]
          exact ih

theorem containsKey_insertArg_self (args : Args) (k : String) (v : Value) :
    containsKey (insertArg args k v) k = true := by
  simp [containsKey]

theorem containsKey_insertArg_ne (args : Args) (k k' : String) (v : Value)
    (h : k' ≠ k) : containsKey (insertArg args k v) k' = containsKey args k' := by
  simp [containsKey, lookupArg_insertArg_ne args k k' v h]

/-- Inserting under the credential key does not change the redacted view of
the args dict: the filter in `args_dump` drops that entry either way. -/
theorem filter_insertArg_api_key (args : Args) (v : Value) :
    (insertArg args "api_key" v).filter (fun kv => kv.1 != "api_key") =
      args.filter (fun kv => kv.1 != "api_key") := by
  induction args with
  | nil => simp [insertArg]
  | cons hd tl ih =>
      obtain ⟨k₀, v₀⟩ := hd
      by_cases h₀ : k₀ == "api_key"
      · have hk : k₀ = "api_key" := by simpa using h₀
        subst hk
        simp [insertArg]
      · have hk : k₀ ≠ "api_key" := by simpa using h₀
        simp only [insertArg, h₀, Bool.false_eq_true, if_false]
        simp [List.filter_cons, hk, ih]

theorem args_dump_insertArg_api_key (args : Args) (v : Value) :
    args_dump (insertArg args "api_key" v) = args_dump args := by
  simp [args_dump, filter_insertArg_api_key]

/-! ### Claims -/

/-- C1: for every supported (provider, model) pair the call should return
without raising with the documented deployment/endpoint/api-version
literals.  The trapi/o1 example does hold, as does azure_openai/gpt-4.1,
but azure_openai with model "gpt-4o-2024-11-20" aborts with
UnsupportedModel: the source tests that model with a plain `if` whose
assignments are dead because the next `if "gpt-4.1" ... else: assert False`
is not chained to it, so the claimed pair never reaches the constructor. -/
theorem supported_pair_evaluation :
    create_client ⟨none⟩ (sampleConfig "azure_openai" "gpt-4o-2024-11-20") =
      .error .unsupportedModel ∧
    (∃ c s a, run_provider ⟨none⟩ (sampleConfig "trapi" "o1")
        (base_args (sampleConfig "trapi" "o1")) = .ok (c, s, a) ∧
      lookupArg a "azure_deployment" = some (.str "o1_2024-12-17") ∧
      lookupArg a "azure_endpoint" =
        some (.str "https://trapi.research.microsoft.com/msraif/shared") ∧
      lookupArg a "api_version" = some (.str "2025-03-01-preview")) ∧
    (∃ c s a, run_provider ⟨none⟩ (sampleConfig "azure_openai" "gpt-4.1")
        (base_args (sampleConfig "azure_openai" "gpt-4.1")) = .ok (c, s, a) ∧
      lookupArg a "azure_deployment" = some (.str "gpt-4.1") ∧
      lookupArg a "azure_endpoint" = some (.str "https://aipmaker.openai.azure.com/") ∧
      lookupArg a "api_version" = some (.str "2024-12-01-preview")) :=
  ⟨rfl, ⟨_, _, _, rfl, rfl, rfl, rfl⟩, ⟨_, _, _, rfl, rfl, rfl, rfl⟩⟩

/-- C2: the base argument set contains `reasoning_effort` exactly when the
model name starts with "o", and contains each of the six sampling/retry/
limit keys exactly when it does not; the two key sets are mutually
exclusive and exhaustive over all model names. -/
theorem base_args_reasoning_branch (config : Config) :
    containsKey (base_args config) "reasoning_effort" = startswith config.model "o" ∧
    containsKey (base_args config) "temperature" = !startswith config.model "o" ∧
    containsKey (base_args config) "presence_penalty" = !startswith config.model "o" ∧
    containsKey (base_args config) "frequency_penalty" = !startswith config.model "o" ∧
    containsKey (base_args config) "max_retries" = !startswith config.model "o" ∧
    containsKey (base_args config) "max_completion_tokens" = !startswith config.model "o" ∧
    containsKey (base_args config) "top_p" = !startswith config.model "o" := by
  cases h : startswith config.model "o" <;>
    simp only [base_args, h, Bool.not_false, Bool.not_true, if_true,
      Bool.false_eq_true, if_false] <;>
    exact ⟨rfl, rfl, rfl, rfl, rfl, rfl, rfl⟩

/-- C3: a provider string other than the four recognized ones makes
`create_client` abort with UnsupportedProvider, whatever the rest of the
configuration and environment hold. -/
theorem unknown_provider_aborts (env : Env) (config : Config)
    (h : config.provider ∉ (["openai", "azure_openai", "trapi", "phi"] : List String)) :
    create_client env config = .error .unsupportedProvider := by
  simp only [List.mem_cons, List.not_mem_nil, or_false, not_or] at h
  obtain ⟨h1, h2, h3, h4⟩ := h
  simp [create_client, run_provider, beq_iff_eq, h1, h2, h3, h4]

/-- Witness for C3 at a concrete configuration. -/
theorem unknown_provider_aborts_witness :
    (sampleConfig "bogus" "gpt-4o-2024-11-20").provider ∉
      (["openai", "azure_openai", "trapi", "phi"] : List String) ∧
    create_client ⟨none⟩ (sampleConfig "bogus" "gpt-4o-2024-11-20") =
      .error .unsupportedProvider :=
  ⟨by decide, unknown_provider_aborts ⟨none⟩ _ (by decide)⟩

/-- Models whose deployment the azure_openai branch text mentions.  Note
"gpt-4o-2024-11-20" is listed in the source even though its branch is
dead (see C1). -/
def aoai_models : List String := ["gpt-4o-2024-11-20", "gpt-4.1"]

/-- Models mapped by the trapi branch. -/
def trapi_models : List String :=
  ["gpt-4o-2024-08-06", "gpt-4o-2024-05-13", "gpt-4o-2024-11-20",
   "gpt-4.1-2025-04-14", "o1-preview", "o1", "o3-mini", "o4-mini",
   "o4-mini-2025-04-16"]

theorem trapi_mapping_eq_none (m : String) (h : m ∉ trapi_models) :
    trapi_mapping m = none := by
  simp only [trapi_models, List.mem_cons, List.not_mem_nil, or_false, not_or] at h
  obtain ⟨h1, h2, h3, h4, h5, h6, h7, h8, h9⟩ := h
  simp [trapi_mapping, beq_iff_eq, h1, h2, h3, h4, h5, h6, h7, h8, h9]

/-- C4: for the two mapped providers, a model matching no entry of the
provider's fixed mapping makes `create_client` abort with
UnsupportedModel. -/
theorem unknown_model_aborts (env : Env) (config : Config) :
    (config.provider = "azure_openai" → config.model ∉ aoai_models →
      create_client env config = .error .unsupportedModel) ∧
    (config.provider = "trapi" → config.model ∉ trapi_models →
      create_client env config = .error .unsupportedModel) := by
  constructor
  · intro hp hm
    simp only [aoai_models, List.mem_cons, List.not_mem_nil, or_false, not_or] at hm
    obtain ⟨-, hm2⟩ := hm
    simp [create_client, run_provider, create_aoai_client, beq_iff_eq, hp, hm2]
  · intro hp hm
    simp [create_client, run_provider, create_trapi_client, beq_iff_eq, hp,
      trapi_mapping_eq_none config.model hm]

/-- Witness for C4 at a concrete unmapped model for each provider. -/
theorem unknown_model_aborts_witness :
    ((sampleConfig "azure_openai" "gpt-5").provider = "azure_openai" ∧
      (sampleConfig "azure_openai" "gpt-5").model ∉ aoai_models ∧
      create_client ⟨none⟩ (sampleConfig "azure_openai" "gpt-5") =
        .error .unsupportedModel) ∧
    ((sampleConfig "trapi" "gpt-5").provider = "trapi" ∧
      (sampleConfig "trapi" "gpt-5").model ∉ trapi_models ∧
      create_client ⟨none⟩ (sampleConfig "trapi" "gpt-5") =
        .error .unsupportedModel) :=
  ⟨⟨rfl, by decide,
      (unknown_model_aborts ⟨none⟩ (sampleConfig "azure_openai" "gpt-5")).1 rfl (by decide)⟩,
   ⟨rfl, by decide,
      (unknown_model_aborts ⟨none⟩ (sampleConfig "trapi" "gpt-5")).2 rfl (by decide)⟩⟩

/-- C5: with the first recorder key present but disabled and the second
key absent, `create_client` returns exactly what the provider branch
constructed; with the second key present, the returned client is a
recorder wrap carrying that sub-configuration's mode and session filename,
whatever its `enabled` field says. -/
theorem recorder_wrapping (env : Env) (config : Config) :
    (∀ w, config.ChatCompletionClientRecorder = some w → w.enabled = false →
      config.ClientRecorder = none →
      create_client env config =
        (run_provider env config (base_args config)).map
          (fun r => (r.1, args_dump r.2.2))) ∧
    (∀ w2 c d, config.ClientRecorder = some w2 →
      create_client env config = .ok (c, d) →
      ∃ inner, c = .recorder inner w2.mode w2.session_filename) := by
  constructor
  · intro w hw he hcr
    unfold create_client
    cases hrp : run_provider env config (base_args config) with
    | error e => simp [Except.map]
    | ok r =>
        obtain ⟨client, source, args⟩ := r
        simp [Except.map, hw, he, hcr]
  · intro w2 c d hcr hok
    unfold create_client at hok
    cases hrp : run_provider env config (base_args config) with
    | error e =>
        rw [hrp] at hok
        simp at hok
    | ok r =>
        obtain ⟨client, source, args⟩ := r
        rw [hrp, hcr] at hok
        simp only [Except.ok.injEq, Prod.mk.injEq] at hok
        exact ⟨_, hok.1.symm⟩

/-- Configuration with the first recorder key present but disabled, used
by the C5 witness. -/
def cfgRecorderOff : Config :=
  { sampleConfig "openai" "gpt-4o-2024-11-20" with
    ChatCompletionClientRecorder := some ⟨false, .str "record", .str "session1"⟩ }

/-- Configuration with the second recorder key present and its `enabled`
field false, used by the C5 witness. -/
def cfgRecorder2 : Config :=
  { sampleConfig "openai" "gpt-4o-2024-11-20" with
    ClientRecorder := some ⟨false, .str "replay", .str "session2.json"⟩ }

/-- Witness for C5: part one at a disabled first recorder, part two at a
present second recorder whose `enabled` field is false. -/
theorem recorder_wrapping_witness :
    (cfgRecorderOff.ChatCompletionClientRecorder =
        some ⟨false, .str "record", .str "session1"⟩ ∧
      cfgRecorderOff.ClientRecorder = none ∧
      create_client ⟨none⟩ cfgRecorderOff =
        (run_provider ⟨none⟩ cfgRecorderOff (base_args cfgRecorderOff)).map
          (fun r => (r.1, args_dump r.2.2))) ∧
    (∃ c d, create_client ⟨none⟩ cfgRecorder2 = .ok (c, d) ∧
      ∃ inner, c = .recorder inner (.str "replay") (.str "session2.json")) := by
  refine ⟨⟨rfl, rfl, (recorder_wrapping ⟨none⟩ cfgRecorderOff).1 _ rfl rfl rfl⟩, ?_⟩
  obtain ⟨c, d, hcd⟩ : ∃ c d, create_client ⟨none⟩ cfgRecorder2 = .ok (c, d) :=
    ⟨_, _, rfl⟩
  exact ⟨c, d, hcd, (recorder_wrapping ⟨none⟩ cfgRecorder2).2 _ c d rfl hcd⟩

/-- C6 counterexample: it is not the case that exactly two model names in
the trapi mapping carry a model-version string; "o3-mini", "o4-mini" and
"o4-mini-2025-04-16" are three distinct names that all do. -/
theorem trapi_model_version_two_refuted :
    ¬ ∃ a b : String, ∀ m : String,
        ((trapi_mapping m).bind (fun p => p.2)).isSome = true ↔ (m = a ∨ m = b) := by
  rintro ⟨a, b, h⟩
  have h3 := (h "o3-mini").mp (by decide)
  have h4 := (h "o4-mini").mp (by decide)
  have h5 := (h "o4-mini-2025-04-16").mp (by decide)
  rcases h3 with h3 | h3 <;>
    (subst h3
     rcases h4 with h4 | h4 <;>
       first
         | exact absurd h4 (by decide)
         | (subst h4
            rcases h5 with h5 | h5 <;> exact absurd h5 (by decide)))

/-- C6 amended: exactly three model names in the trapi mapping carry an
explicit model-version string ("o3-mini", "o4-mini",
"o4-mini-2025-04-16"), and the version is forwarded into the resolved
arguments only for "o3-mini"; for every other model the resolved
arguments contain no model_version key. -/
theorem trapi_model_version_amended :
    (∀ m : String, ((trapi_mapping m).bind (fun p => p.2)).isSome = true ↔
        m ∈ (["o3-mini", "o4-mini", "o4-mini-2025-04-16"] : List String)) ∧
    (∀ config args c s a2, lookupArg args "model_version" = none →
      create_trapi_client config args = .ok (c, s, a2) →
      ((lookupArg a2 "model_version").isSome = true ↔ config.model = "o3-mini")) := by
  constructor
  · intro m
    by_cases h1 : m = "gpt-4o-2024-08-06"
    · subst h1; decide
    by_cases h2 : m = "gpt-4o-2024-05-13"
    · subst h2; decide
    by_cases h3 : m = "gpt-4o-2024-11-20"
    · subst h3; decide
    by_cases h4 : m = "gpt-4.1-2025-04-14"
    · subst h4; decide
    by_cases h5 : m = "o1-preview"
    · subst h5; decide
    by_cases h6 : m = "o1"
    · subst h6; decide
    by_cases h7 : m = "o3-mini"
    · subst h7; decide
    by_cases h8 : m = "o4-mini"
    · subst h8; decide
    by_cases h9 : m = "o4-mini-2025-04-16"
    · subst h9; decide
    have hz := trapi_mapping_eq_none m
      (by simp [trapi_models, h1, h2, h3, h4, h5, h6, h7, h8, h9])
    simp [hz, h7, h8, h9]
  · intro config args c s a2 hnone hok
    cases hmap : trapi_mapping config.model with
    | none =>
        simp only [create_trapi_client, hmap] at hok
        exact (Except.noConfusion hok)
    | some p =>
        obtain ⟨dep, mv⟩ := p
        simp only [create_trapi_client, hmap, Except.ok.injEq, Prod.mk.injEq] at hok
        obtain ⟨-, -, ha2⟩ := hok
        subst ha2
        rw [lookupArg_insertArg_ne _ _ _ _ (by decide),
          lookupArg_insertArg_ne _ _ _ _ (by decide)]
        by_cases ho : config.model = "o3-mini"
        · have hmv : mv = some "2025-01-31" := by
            rw [ho] at hmap
            have hlit : trapi_mapping "o3-mini" =
                some ("o3-mini_2025-01-31", some "2025-01-31") := by decide
            rw [hlit] at hmap
            exact (congrArg Prod.snd (Option.some.inj hmap)).symm
          simp [ho, hmv]
        · have hbeq : (config.model == "o3-mini") = false :=
            beq_eq_false_iff_ne.mpr ho
          rw [if_neg (by simp [hbeq])]
          rw [lookupArg_insertArg_ne _ _ _ _ (by decide),
            lookupArg_insertArg_ne _ _ _ _ (by decide), hnone]
          simpa using ho

/-- Witness for C6's amended theorem: the version-carrying names at
"o4-mini", and the forwarding iff at a concrete "o3-mini" call. -/
theorem trapi_model_version_amended_witness :
    (((trapi_mapping "o4-mini").bind (fun p => p.2)).isSome = true ↔
      "o4-mini" ∈ (["o3-mini", "o4-mini", "o4-mini-2025-04-16"] : List String)) ∧
    (lookupArg [] "model_version" = none ∧
      ∃ c s a2, create_trapi_client (sampleConfig "trapi" "o3-mini") [] = .ok (c, s, a2) ∧
        ((lookupArg a2 "model_version").isSome = true ↔
          (sampleConfig "trapi" "o3-mini").model = "o3-mini")) :=
  ⟨(trapi_model_version_amended).1 "o4-mini",
   rfl, _, _, _, rfl,
   (trapi_model_version_amended).2 (sampleConfig "trapi" "o3-mini") [] _ _ _ rfl rfl⟩

/-- C7: the phi branch always constructs a client whose resolved arguments
carry the fixed base URL and the capability descriptor with all five
boolean flags false and family "phi". -/
theorem phi_capability_descriptor (env : Env) (config : Config)
    (h : config.provider = "phi") :
    ∃ c s a, run_provider env config (base_args config) = .ok (c, s, a) ∧
      lookupArg a "base_url" = some (.str "https://gateway.phyagi.net/api") ∧
      lookupArg a "model_info" =
        some (.modelInfo false false false false false "phi") := by
  refine ⟨(create_phi_client env (base_args config)).1,
    (create_phi_client env (base_args config)).2.1,
    (create_phi_client env (base_args config)).2.2, ?_, ?_, ?_⟩
  · simp [run_provider, beq_iff_eq, h]
  · simp only [create_phi_client]
    rw [lookupArg_insertArg_ne _ _ _ _ (by decide), lookupArg_insertArg_self]
  · simp only [create_phi_client]
    rw [lookupArg_insertArg_self]

/-- Witness for C7 at a concrete phi configuration. -/
theorem phi_capability_descriptor_witness :
    (sampleConfig "phi" "phi-4").provider = "phi" ∧
    ∃ c s a, run_provider ⟨some "k"⟩ (sampleConfig "phi" "phi-4")
        (base_args (sampleConfig "phi" "phi-4")) = .ok (c, s, a) ∧
      lookupArg a "base_url" = some (.str "https://gateway.phyagi.net/api") ∧
      lookupArg a "model_info" =
        some (.modelInfo false false false false false "phi") :=
  ⟨rfl, phi_capability_descriptor ⟨some "k"⟩ (sampleConfig "phi" "phi-4") rfl⟩

/-- Inserting under a non-credential key commutes with the redacting
filter of `args_dump`. -/
theorem filter_api_key_insertArg (args : Args) (k : String) (v : Value)
    (h : k ≠ "api_key") :
    (insertArg args k v).filter (fun kv => kv.1 != "api_key") =
      insertArg (args.filter (fun kv => kv.1 != "api_key")) k v := by
  induction args with
  | nil => simp [insertArg, h]
  | cons hd tl ih =>
      obtain ⟨k₀, v₀⟩ := hd
      by_cases h₀ : k₀ == k
      · have hk : k₀ = k := by simpa using h₀
        subst hk
        simp [insertArg, h₀, List.filter_cons, h]
      · simp only [insertArg, h₀, Bool.false_eq_true, if_false]
        by_cases h₁ : k₀ = "api_key"
        · subst h₁
          simp [List.filter_cons, ih]
        · simp [List.filter_cons, h₁, insertArg, h₀, ih]

/-- The dump the logger sees is the redacted view of the args the provider
branch produced, for any outcome of the dispatch. -/
theorem create_client_dump (env : Env) (config : Config) :
    (create_client env config).map (fun r => r.2) =
    (run_provider env config (base_args config)).map (fun r => args_dump r.2.2) := by
  unfold create_client
  cases hrp : run_provider env config (base_args config) with
  | error e => simp [Except.map]
  | ok r =>
      obtain ⟨client, source, args⟩ := r
      cases config.ChatCompletionClientRecorder <;>
        cases config.ClientRecorder <;> simp [Except.map]

/-- C8: the logged dump of resolved arguments is independent of the
credential: changing (or dropping) the configured `api_key` and the
`PHYAGI_API_KEY` environment value changes neither the outcome nor the
dumped string. -/
theorem logged_dump_credential_free (config : Config)
    (p1 p2 : Option String) (k1 k2 : Option Value) :
    (create_client ⟨p1⟩ { config with api_key := k1 }).map (fun r => r.2) =
    (create_client ⟨p2⟩ { config with api_key := k2 }).map (fun r => r.2) := by
  rw [create_client_dump, create_client_dump]
  have hbase : ∀ k : Option Value,
      base_args { config with api_key := k } = base_args config := fun _ => rfl
  have hprov : ∀ k : Option Value,
      ({ config with api_key := k } : Config).provider = config.provider :=
    fun _ => rfl
  simp only [hbase]
  unfold run_provider
  simp only [hprov]
  by_cases h1 : config.provider = "openai"
  · have hb : (config.provider == "openai") = true := beq_iff_eq.mpr h1
    simp only [hb, if_true, Except.map]
    congr 1
    cases k1 <;> cases k2 <;>
      simp [create_oai_client, args_dump_insertArg_api_key, hbase]
  have hb1 : (config.provider == "openai") = false := beq_eq_false_iff_ne.mpr h1
  simp only [hb1, Bool.false_eq_true, if_false]
  by_cases h2 : config.provider = "azure_openai"
  · have hb : (config.provider == "azure_openai") = true := beq_iff_eq.mpr h2
    simp only [hb, if_true]
    rfl
  have hb2 : (config.provider == "azure_openai") = false := beq_eq_false_iff_ne.mpr h2
  simp only [hb2, Bool.false_eq_true, if_false]
  by_cases h3 : config.provider = "trapi"
  · have hb : (config.provider == "trapi") = true := beq_iff_eq.mpr h3
    simp only [hb, if_true]
    rfl
  have hb3 : (config.provider == "trapi") = false := beq_eq_false_iff_ne.mpr h3
  simp only [hb3, Bool.false_eq_true, if_false]
  by_cases h4 : config.provider = "phi"
  · have hb : (config.provider == "phi") = true := beq_iff_eq.mpr h4
    simp only [hb, if_true, Except.map]
    congr 1
    unfold args_dump
    congr 1
    simp only [create_phi_client, hbase]
    rw [filter_api_key_insertArg _ _ _ (by decide),
      filter_api_key_insertArg _ _ _ (by decide),
      filter_insertArg_api_key,
      filter_api_key_insertArg _ _ _ (by decide),
      filter_api_key_insertArg _ _ _ (by decide),
      filter_insertArg_api_key]
  have hb4 : (config.provider == "phi") = false := beq_eq_false_iff_ne.mpr h4
  simp only [hb4, Bool.false_eq_true, if_false]

/-- Every provider branch only adds keys other than "model" to the args
it was given, so the final args agree with the incoming args at "model". -/
theorem run_provider_preserves_model (env : Env) (config : Config)
    (args : Args) (c : Client) (s : String) (a : Args)
    (h : run_provider env config args = .ok (c, s, a)) :
    lookupArg a "model" = lookupArg args "model" := by
  unfold run_provider at h
  by_cases h1 : (config.provider == "openai") = true
  · rw [if_pos h1] at h
    simp only [create_oai_client, Except.ok.injEq, Prod.mk.injEq] at h
    obtain ⟨-, -, ha⟩ := h
    subst ha
    cases config.api_key with
    | none => rfl
    | some v => exact lookupArg_insertArg_ne _ _ _ _ (by decide)
  rw [if_neg h1] at h
  by_cases h2 : (config.provider == "azure_openai") = true
  · rw [if_pos h2] at h
    by_cases hm : (config.model == "gpt-4.1") = true
    · simp only [create_aoai_client, hm, if_true, Except.ok.injEq,
        Prod.mk.injEq] at h
      obtain ⟨-, -, ha⟩ := h
      subst ha
      rw [lookupArg_insertArg_ne _ _ _ _ (by decide),
        lookupArg_insertArg_ne _ _ _ _ (by decide),
        lookupArg_insertArg_ne _ _ _ _ (by decide),
        lookupArg_insertArg_ne _ _ _ _ (by decide)]
    · simp only [create_aoai_client, hm, Bool.false_eq_true, if_false] at h
      exact (Except.noConfusion h)
  rw [if_neg h2] at h
  by_cases h3 : (config.provider == "trapi") = true
  · rw [if_pos h3] at h
    cases hmap : trapi_mapping config.model with
    | none =>
        simp only [create_trapi_client, hmap] at h
        exact (Except.noConfusion h)
    | some p =>
        obtain ⟨dep, mv⟩ := p
        simp only [create_trapi_client, hmap, Except.ok.injEq, Prod.mk.injEq] at h
        obtain ⟨-, -, ha⟩ := h
        subst ha
        rw [lookupArg_insertArg_ne _ _ _ _ (by decide),
          lookupArg_insertArg_ne _ _ _ _ (by decide)]
        cases mv with
        | none =>
            split <;>
              rw [lookupArg_insertArg_ne _ _ _ _ (by decide),
                lookupArg_insertArg_ne _ _ _ _ (by decide)]
        | some v =>
            split
            · rw [lookupArg_insertArg_ne _ _ _ _ (by decide),
                lookupArg_insertArg_ne _ _ _ _ (by decide),
                lookupArg_insertArg_ne _ _ _ _ (by decide)]
            · rw [lookupArg_insertArg_ne _ _ _ _ (by decide),
                lookupArg_insertArg_ne _ _ _ _ (by decide)]
  rw [if_neg h3] at h
  by_cases h4 : (config.provider == "phi") = true
  · rw [if_pos h4] at h
    simp only [create_phi_client, Except.ok.injEq, Prod.mk.injEq] at h
    obtain ⟨-, -, ha⟩ := h
    subst ha
    rw [lookupArg_insertArg_ne _ _ _ _ (by decide),
      lookupArg_insertArg_ne _ _ _ _ (by decide),
      lookupArg_insertArg_ne _ _ _ _ (by decide)]
  rw [if_neg h4] at h
  exact (Except.noConfusion h)

/-- C9: whichever branch constructs the client, the resolved arguments
still bind "model" to exactly `config["model"]` as set in the shared base
argument set. -/
theorem resolved_args_model_entry (env : Env) (config : Config)
    (c : Client) (s : String) (a : Args)
    (h : run_provider env config (base_args config) = .ok (c, s, a)) :
    lookupArg a "model" = some (.str config.model) := by
  have hbase : lookupArg (base_args config) "model" = some (.str config.model) := by
    cases hb : startswith config.model "o" <;>
      simp only [base_args, hb, Bool.false_eq_true, if_false, if_true] <;> rfl
  rw [run_provider_preserves_model env config (base_args config) c s a h, hbase]

/-- Witness for C9 at the trapi/o3-mini pair. -/
theorem resolved_args_model_entry_witness :
    ∃ c s a, run_provider ⟨none⟩ (sampleConfig "trapi" "o3-mini")
        (base_args (sampleConfig "trapi" "o3-mini")) = .ok (c, s, a) ∧
      lookupArg a "model" = some (.str (sampleConfig "trapi" "o3-mini").model) :=
  ⟨_, _, _, rfl,
    resolved_args_model_entry ⟨none⟩ (sampleConfig "trapi" "o3-mini") _ _ _ rfl⟩

/-- C10: with the credential environment variable unset, the phi branch
does not abort: `create_client` still succeeds, and `create_phi_client`
binds "api_key" to the absent value (Python None) and constructs the
client from those arguments. -/
theorem phi_missing_credential (config : Config) (h : config.provider = "phi") :
    (∃ c d, create_client ⟨none⟩ config = .ok (c, d)) ∧
    (∀ args : Args,
      lookupArg (create_phi_client ⟨none⟩ args).2.2 "api_key" = some Value.pyNone ∧
      (create_phi_client ⟨none⟩ args).1 =
        Client.openAI (create_phi_client ⟨none⟩ args).2.2) := by
  constructor
  · unfold create_client
    have hrp : run_provider ⟨none⟩ config (base_args config) =
        .ok (create_phi_client ⟨none⟩ (base_args config)) := by
      simp [run_provider, beq_iff_eq, h]
    rw [hrp]
    cases config.ChatCompletionClientRecorder <;>
      cases config.ClientRecorder <;> exact ⟨_, _, rfl⟩
  · intro args
    constructor
    · simp only [create_phi_client]
      rw [lookupArg_insertArg_ne _ _ _ _ (by decide),
        lookupArg_insertArg_ne _ _ _ _ (by decide), lookupArg_insertArg_self]
    · simp only [create_phi_client]

/-- Witness for C10 at a concrete phi configuration and empty args. -/
theorem phi_missing_credential_witness :
    (sampleConfig "phi" "phi-4").provider = "phi" ∧
    (∃ c d, create_client ⟨none⟩ (sampleConfig "phi" "phi-4") = .ok (c, d)) ∧
    (lookupArg (create_phi_client ⟨none⟩ []).2.2 "api_key" = some Value.pyNone ∧
      (create_phi_client ⟨none⟩ []).1 =
        Client.openAI (create_phi_client ⟨none⟩ []).2.2) :=
  ⟨rfl, (phi_missing_credential (sampleConfig "phi" "phi-4") rfl).1,
    (phi_missing_credential (sampleConfig "phi" "phi-4") rfl).2 []⟩

end ClientCreator
